import Mathlib

/-!
Verification of the profile-edit-form component of the Blogs-System
repository (`src/components/user/profile-edit-form.tsx`).

The component is embedded shallowly: each React event handler becomes a
pure Lean function from its inputs (component props, current local state,
and the outcomes of the asynchronous requests it awaits) to a record of
the effects it performs (toasts raised, network requests dispatched,
callbacks invoked, final local state).  JavaScript truthiness on strings
(`"" is falsy`) is modelled explicitly.
-/

namespace BlogsSystem

/-- A toast notice raised through `useToast`; `destructive` is true for
the error variant. -/
structure Toast where
  title : String
  description : String
  destructive : Bool
deriving Repr, DecidableEq

/-- The nested `Profile` entity as the form reads it
(`user.profile.bio / website / birthdate / pfp`). -/
structure Profile where
  bio : Option String
  website : Option String
  birthdate : Option String
  pfp : Option String
deriving Repr, DecidableEq

/-- The `User` entity consumed by the form (fields the component reads). -/
structure User where
  id : String
  username : String
  firstName : Option String
  lastName : Option String
  location : Option String
  about : Option String
  profile : Option Profile
deriving Repr, DecidableEq

/-- JavaScript `s || null` on an optional string: the empty string is
falsy, so it collapses to `none`. -/
def jsTruthyStr : Option String → Option String
  | some s => if s = "" then none else some s
  | none => none

/-- JavaScript `s || ""` on an optional string field. -/
def jsOrEmpty (o : Option String) : String := o.getD ""

/-- JavaScript `String.prototype.startsWith`: character-level prefix
test. -/
def jsStartsWith (s pre : String) : Bool :=
  pre.data.isPrefixOf s.data

/-- A selected file as seen by the handler: `file.size` in bytes and
`file.type` the MIME type string. -/
structure JSFile where
  name : String
  size : Nat
  mime : String
deriving Repr, DecidableEq

/-- The JSON body of a `/api/upload` response: `uploadResult.url` and
`uploadResult.data?.url`. -/
structure UploadJson where
  url : Option String
  dataUrl : Option String
deriving Repr, DecidableEq

/-- `uploadResult.url || uploadResult.data?.url`, with the subsequent
`if (!imageUrl)` guard folded in: the result is `some` exactly when the
code obtains a truthy image URL. -/
def extractImageUrl (j : UploadJson) : Option String :=
  match jsTruthyStr j.url with
  | some s => some s
  | none => jsTruthyStr j.dataUrl

/-- Outcome of `await fetch("/api/upload", ...)`: a network rejection, or
a response with its `ok` flag and parsed JSON body. -/
inductive FetchOutcome where
  | netErr : FetchOutcome
  | resp (ok : Bool) (json : UploadJson) : FetchOutcome
deriving Repr, DecidableEq

/-- The upload request the handler dispatches: `POST /api/upload` with the
file in the form body and `x-user-id` / `x-user-username` headers. -/
structure UploadRequest where
  userId : String
  userName : String
  file : JSFile
deriving Repr, DecidableEq

/-- Effects performed by one run of `handleImageChange`: toasts raised,
the upload request dispatched (if any), and the final values of the
`profileImagePreview` and `profileImage` state. -/
structure ImageEffects where
  toasts : List Toast
  uploadReq : Option UploadRequest
  preview : Option String
  pendingImage : Option JSFile
deriving Repr, DecidableEq

/-- Toast raised when `user` or `user.id` is missing. -/
def missingUserToast : Toast :=
  ⟨"Error", "User data is missing. Please try again.", true⟩

/-- Toast raised when the selected file exceeds 5 MB. -/
def sizeErrorToast : Toast :=
  ⟨"Error", "Image size must be less than 5MB", true⟩

/-- Toast raised when the selected file is not an image. -/
def typeErrorToast : Toast :=
  ⟨"Error", "Only image files are allowed", true⟩

/-- Toast raised after a successful image upload. -/
def uploadSuccessToast : Toast :=
  ⟨"Success", "Profile image uploaded successfully", false⟩

/-- Toast raised when the image upload fails. -/
def uploadErrorToast : Toast :=
  ⟨"Error", "Failed to upload profile image. Please try again.", true⟩

/-- Toast raised after a successful profile update. -/
def updateSuccessToast : Toast :=
  ⟨"Success", "Profile updated successfully", false⟩

/-- Toast raised when the profile update fails. -/
def updateErrorToast : Toast :=
  ⟨"Error", "Failed to update profile. Please try again.", true⟩

/-- JavaScript `!user || !user.id`: the user prop is absent, or its id is
the (falsy) empty string. -/
def userIdMissing : Option User → Bool
  | none => true
  | some u => u.id == ""

/-- Shallow embedding of `handleImageChange`.  Inputs: the `user` prop,
the `e.target.files` list (`none` when the event carries no file list at
all), the current `profileImagePreview` and `profileImage` state, the
data URL the `FileReader` produces for the selected file, and the
outcome of the awaited `fetch`.  Mirrors the source control flow:
no-files return, missing-user guard, size check, type check, local
preview, upload, success/failure handling.  The transient `FileReader`
preview (`readerResult`) is always overwritten before the handler
finishes, so the final state does not depend on it. -/
def handleImageChange (user : Option User) (files : Option (List JSFile))
    (preview0 : Option String) (pending0 : Option JSFile)
    (readerResult : String) (fetchResult : FetchOutcome) : ImageEffects :=
  match files with
  | none =>
    { toasts := [], uploadReq := none, preview := preview0,
      pendingImage := pending0 }
  | some [] =>
    { toasts := [], uploadReq := none, preview := preview0,
      pendingImage := pending0 }
  | some (file :: _) =>
    match user with
    | none =>
      { toasts := [missingUserToast], uploadReq := none,
        preview := preview0, pendingImage := pending0 }
    | some u =>
      if u.id = "" then
        { toasts := [missingUserToast], uploadReq := none,
          preview := preview0, pendingImage := pending0 }
      else if file.size > 5 * 1024 * 1024 then
        { toasts := [sizeErrorToast], uploadReq := none,
          preview := preview0, pendingImage := pending0 }
      else if ¬ jsStartsWith file.mime "image/" then
        { toasts := [typeErrorToast], uploadReq := none,
          preview := preview0, pendingImage := pending0 }
      else
        let req : UploadRequest := ⟨u.id, u.username, file⟩
        match fetchResult with
        | FetchOutcome.resp true json =>
          match extractImageUrl json with
          | some imageUrl =>
            { toasts := [uploadSuccessToast], uploadReq := some req,
              preview := some imageUrl, pendingImage := some file }
          | none =>
            { toasts := [uploadErrorToast], uploadReq := some req,
              preview := jsTruthyStr (u.profile.bind Profile.pfp),
              pendingImage := none }
        | FetchOutcome.resp false _ =>
          { toasts := [uploadErrorToast], uploadReq := some req,
            preview := jsTruthyStr (u.profile.bind Profile.pfp),
            pendingImage := none }
        | FetchOutcome.netErr =>
          { toasts := [uploadErrorToast], uploadReq := some req,
            preview := jsTruthyStr (u.profile.bind Profile.pfp),
            pendingImage := none }

/-- The parsed form values (`ProfileFormValues`).  `birthdate` is a
JavaScript `Date`, modelled by its millisecond timestamp; its
serialization `toISOString` is abstracted as a parameter below. -/
structure ProfileFormValues where
  username : String
  firstName : Option String
  lastName : Option String
  location : Option String
  about : Option String
  bio : Option String
  website : Option String
  birthdate : Option Int
deriving Repr, DecidableEq

/-- The nested `profile` record of the update payload built in
`onSubmit`. -/
structure ProfilePayload where
  bio : Option String
  website : Option String
  birthdate : Option String
  pfp : Option String
deriving Repr, DecidableEq

/-- The `profileData` record passed to `userController.updateProfile`. -/
structure UpdatePayload where
  username : String
  firstName : String
  lastName : String
  location : String
  about : String
  profile : ProfilePayload
deriving Repr, DecidableEq

/-- The `profileData` object literal of `onSubmit` (lines 221–233 of the
source): `|| ""` on the optional top-level fields, `|| null` on `bio` and
`website`, `birthdate ? birthdate.toISOString() : null` (a `Date` object
is always truthy), and `pfp` taken from the current preview state. -/
def buildProfileData (toISO : Int → String) (data : ProfileFormValues)
    (preview : Option String) : UpdatePayload :=
  { username := data.username
    firstName := jsOrEmpty data.firstName
    lastName := jsOrEmpty data.lastName
    location := jsOrEmpty data.location
    about := jsOrEmpty data.about
    profile :=
      { bio := jsTruthyStr data.bio
        website := jsTruthyStr data.website
        birthdate := data.birthdate.map toISO
        pfp := preview } }

/-- Outcome of `await userController.updateProfile(...)`: the promise
rejects, or it resolves with a value that is either a `User` entity or
null/undefined (falsy). -/
inductive ControllerOutcome where
  | throws : ControllerOutcome
  | returns (u : Option User) : ControllerOutcome
deriving Repr, DecidableEq

/-- Effects performed by one run of `onSubmit`: toasts raised, the
`updateProfile` call dispatched (target id and payload, if any), the
`onUpdate` invocations with their arguments, the number of `onClose`
invocations, and the form values after the run (the handler never resets
or rewrites fields). -/
structure SubmitEffects where
  toasts : List Toast
  controllerCall : Option (String × UpdatePayload)
  onUpdateCalls : List User
  onCloseCalls : Nat
  formValuesAfter : ProfileFormValues
deriving Repr, DecidableEq

/-- Shallow embedding of `onSubmit`.  Inputs: the `user` prop, the
current `profileImagePreview` state, the validated form values, the
`toISOString` serialization, and the controller behaviour (a function
from the dispatched id and payload to the awaited outcome). -/
def onSubmit (toISO : Int → String) (user : Option User)
    (preview : Option String) (data : ProfileFormValues)
    (controller : String → UpdatePayload → ControllerOutcome) :
    SubmitEffects :=
  match user with
  | none =>
    { toasts := [missingUserToast], controllerCall := none,
      onUpdateCalls := [], onCloseCalls := 0, formValuesAfter := data }
  | some u =>
    if u.id = "" then
      { toasts := [missingUserToast], controllerCall := none,
        onUpdateCalls := [], onCloseCalls := 0, formValuesAfter := data }
    else
      let payload := buildProfileData toISO data preview
      match controller u.id payload with
      | ControllerOutcome.throws =>
        { toasts := [updateErrorToast],
          controllerCall := some (u.id, payload),
          onUpdateCalls := [], onCloseCalls := 0, formValuesAfter := data }
      | ControllerOutcome.returns none =>
        { toasts := [updateErrorToast],
          controllerCall := some (u.id, payload),
          onUpdateCalls := [], onCloseCalls := 0, formValuesAfter := data }
      | ControllerOutcome.returns (some updatedUser) =>
        { toasts := [updateSuccessToast],
          controllerCall := some (u.id, payload),
          onUpdateCalls := [updatedUser], onCloseCalls := 0,
          formValuesAfter := data }

/-- The zod `username` rule: `z.string().min(3).max(30)`. -/
def validateUsername (s : String) : Bool :=
  3 ≤ s.length && s.length ≤ 30

/-- The zod `bio` rule: `z.string().max(160).optional()`. -/
def validateBio : Option String → Bool
  | none => true
  | some s => s.length ≤ 160

/-- The zod `website` rule:
`z.string().url().optional().or(z.literal(""))`, parameterized by the URL
syntax check `isURL` the library applies.  An absent value passes via
`optional()`, the empty string passes via the `z.literal("")` branch, and
any other string must satisfy the URL check. -/
def validateWebsite (isURL : String → Bool) : Option String → Bool
  | none => true
  | some s => if s = "" then true else isURL s

/-- The whole `profileFormSchema`: `firstName`, `lastName`, `location`,
`about` are unconstrained optional strings and `birthdate` an optional
`Date`, so only `username`, `bio` and `website` can fail. -/
def validateForm (isURL : String → Bool) (v : ProfileFormValues) : Bool :=
  validateUsername v.username && validateBio v.bio
    && validateWebsite isURL v.website

/-- `form.handleSubmit(onSubmit)`: the resolver validates the values
against `profileFormSchema` and invokes `onSubmit` only when validation
passes; otherwise no submission happens. -/
def handleSubmit (isURL : String → Bool) (toISO : Int → String)
    (user : Option User) (preview : Option String)
    (data : ProfileFormValues)
    (controller : String → UpdatePayload → ControllerOutcome) :
    Option SubmitEffects :=
  if validateForm isURL data then
    some (onSubmit toISO user preview data controller)
  else
    none

/-- The `disabled` prop of the submit button:
`isSubmitting || uploadingImage`. -/
def submitDisabled (isSubmitting uploadingImage : Bool) : Bool :=
  isSubmitting || uploadingImage

/-- An upload attempt that fails: the fetch promise rejects, the
response status is non-OK, or the response JSON carries no truthy URL
(each of which makes the source throw into its catch block). -/
def uploadFailed : FetchOutcome → Bool
  | FetchOutcome.netErr => true
  | FetchOutcome.resp ok json => !ok || (extractImageUrl json).isNone

/-- Sample persisted profile-picture URL. -/
def samplePfp : String := "https://cdn.example.com/old.png"

/-- Sample persisted profile record. -/
def sampleProfileRec : Profile := ⟨some "old bio", none, none, some samplePfp⟩

/-- Sample user prop with an id present. -/
def sampleUser : User := ⟨"u1", "alice", some "Alice", none, none, none, some sampleProfileRec⟩

/-- Sample user prop whose id is the empty (falsy) string. -/
def noIdUser : User := ⟨"", "ghost", none, none, none, none, none⟩

/-- Sample updated entity returned by the controller. -/
def sampleUpdated : User := ⟨"u1", "alice123", none, none, none, none, none⟩

/-- Sample form values matching the end-to-end example of the spec:
username alice123, bio hi, website empty. -/
def sampleData : ProfileFormValues := ⟨"alice123", none, none, none, none, some "hi", some "", none⟩

/-- Sample form values whose username has length 2. -/
def shortNameData : ProfileFormValues := ⟨"ab", none, none, none, none, none, none, none⟩

/-- Sample form values whose website is a non-URL string. -/
def badUrlData : ProfileFormValues := ⟨"alice123", none, none, none, none, none, some "not-a-url", none⟩

/-- Sample valid image file. -/
def sampleFile : JSFile := ⟨"avatar.png", 1000, "image/png"⟩

/-- Sample file one byte over the 5 MB limit. -/
def oversizeFile : JSFile := ⟨"big.png", 5 * 1024 * 1024 + 1, "image/png"⟩

/-- Sample non-image file. -/
def textFile : JSFile := ⟨"notes.txt", 1000, "text/plain"⟩

/-- Sample serialization of a millisecond timestamp. -/
def sampleToISO : Int → String := fun msec => toString msec

/-- Sample URL syntax check that accepts nothing (in particular it
rejects the string not-a-url). -/
def noValidURL : String → Bool := fun _ => false

/-- Sample controller behaviour that resolves with the updated entity. -/
def controllerOk : String → UpdatePayload → ControllerOutcome :=
  fun _ _ => ControllerOutcome.returns (some sampleUpdated)

/-- Sample controller behaviour that resolves with a falsy value. -/
def controllerNull : String → UpdatePayload → ControllerOutcome :=
  fun _ _ => ControllerOutcome.returns none

/-- When the user id is present, `onSubmit` always dispatches the
controller call with the built payload, whatever the controller does. -/
theorem onSubmit_present_controllerCall (toISO : Int → String) (u : User)
    (preview : Option String) (data : ProfileFormValues)
    (controller : String → UpdatePayload → ControllerOutcome)
    (hid : u.id ≠ "") :
    (onSubmit toISO (some u) preview data controller).controllerCall =
      some (u.id, buildProfileData toISO data preview) := by
  cases hc : controller u.id (buildProfileData toISO data preview) with
  | throws => simp [onSubmit, hid, hc]
  | returns ou => cases ou <;> simp_all [onSubmit, hid, hc]

/-- An oversize file makes `handleImageChange` stop with a size error
and unchanged state. -/
theorem handleImageChange_oversize (u : User) (file : JSFile)
    (rest : List JSFile) (preview0 : Option String)
    (pending0 : Option JSFile) (readerResult : String)
    (outcome : FetchOutcome) (hid : u.id ≠ "")
    (hsz : file.size > 5 * 1024 * 1024) :
    handleImageChange (some u) (some (file :: rest)) preview0 pending0
        readerResult outcome =
      { toasts := [sizeErrorToast], uploadReq := none,
        preview := preview0, pendingImage := pending0 } := by
  simp [handleImageChange, hid, hsz]

/-- A non-image file (within the size limit) makes `handleImageChange`
stop with a type error and unchanged state. -/
theorem handleImageChange_badtype (u : User) (file : JSFile)
    (rest : List JSFile) (preview0 : Option String)
    (pending0 : Option JSFile) (readerResult : String)
    (outcome : FetchOutcome) (hid : u.id ≠ "")
    (hsz : ¬ file.size > 5 * 1024 * 1024)
    (hty : jsStartsWith file.mime "image/" = false) :
    handleImageChange (some u) (some (file :: rest)) preview0 pending0
        readerResult outcome =
      { toasts := [typeErrorToast], uploadReq := none,
        preview := preview0, pendingImage := pending0 } := by
  simp [handleImageChange, hid, hsz, hty]

/-- Claim C1, counterexample: at a concrete valid submission whose
controller call succeeds with a truthy updated entity, `onUpdate` is
indeed invoked exactly once with the returned entity, yet the handler
performs zero `onClose` invocations — the dialog is not closed by the
submit path, refuting the claim that `onClose` fires. -/
theorem c1_counterexample_no_close_on_success :
    (onSubmit sampleToISO (some sampleUser)
        (some "https://cdn.example.com/new.png") sampleData
        controllerOk).onUpdateCalls = [sampleUpdated]
    ∧ (onSubmit sampleToISO (some sampleUser)
        (some "https://cdn.example.com/new.png") sampleData
        controllerOk).onCloseCalls = 0 := by
  constructor <;> rfl

/-- Claim C1, amended: for every valid submission where the controller
call succeeds and returns a truthy updated User entity, the form
notifies the parent by calling `onUpdate` exactly once with the returned
entity; the submit handler itself never invokes `onClose` (closing the
dialog is left to the parent reacting to `onUpdate`). -/
theorem c1_success_notifies_parent_once (toISO : Int → String) (u : User)
    (preview : Option String) (data : ProfileFormValues)
    (controller : String → UpdatePayload → ControllerOutcome)
    (updated : User) (hid : u.id ≠ "")
    (hc : controller u.id (buildProfileData toISO data preview) =
      ControllerOutcome.returns (some updated)) :
    (onSubmit toISO (some u) preview data controller).onUpdateCalls =
      [updated]
    ∧ (onSubmit toISO (some u) preview data controller).onCloseCalls = 0 := by
  constructor <;> simp [onSubmit, hid, hc]

/-- Claim C1, witness: the amended theorem applied at a concrete
submission. -/
theorem c1_success_notifies_parent_once_witness :
    sampleUser.id ≠ ""
    ∧ controllerOk sampleUser.id
        (buildProfileData sampleToISO sampleData (some samplePfp)) =
      ControllerOutcome.returns (some sampleUpdated)
    ∧ ((onSubmit sampleToISO (some sampleUser) (some samplePfp) sampleData
          controllerOk).onUpdateCalls = [sampleUpdated]
      ∧ (onSubmit sampleToISO (some sampleUser) (some samplePfp) sampleData
          controllerOk).onCloseCalls = 0) :=
  ⟨by decide, rfl,
    c1_success_notifies_parent_once sampleToISO sampleUser (some samplePfp)
      sampleData controllerOk sampleUpdated (by decide) rfl⟩

/-- Claim C2, counterexample: a failing upload reverts the preview to
the persisted profile picture, not to the pre-upload preview value.
Concretely, with the pre-upload preview holding the URL of an earlier
successful upload, the failing handler ends with the persisted URL,
which differs from the pre-upload value. -/
theorem c2_counterexample_revert_target :
    (handleImageChange (some sampleUser) (some [sampleFile])
        (some "https://cdn.example.com/first-upload.png") none
        "data:image/png;base64" FetchOutcome.netErr).preview
      = some samplePfp
    ∧ (handleImageChange (some sampleUser) (some [sampleFile])
        (some "https://cdn.example.com/first-upload.png") none
        "data:image/png;base64" FetchOutcome.netErr).preview
      ≠ some "https://cdn.example.com/first-upload.png" := by
  constructor
  · rfl
  · decide

/-- Claim C2, amended: for every image upload that fails (network error,
non-OK HTTP status, or a response containing no URL), the preview state
is reverted to the previously persisted profile image
(`user.profile?.pfp`, with an absent or empty value becoming null), the
pending-image state is cleared, and an error toast is surfaced.  This
equals the pre-upload preview value only when the preview still held the
persisted image. -/
theorem c2_failed_upload_reverts_to_persisted (u : User) (file : JSFile)
    (rest : List JSFile) (preview0 : Option String)
    (pending0 : Option JSFile) (readerResult : String)
    (outcome : FetchOutcome) (hid : u.id ≠ "")
    (hsize : file.size ≤ 5 * 1024 * 1024)
    (htype : jsStartsWith file.mime "image/" = true)
    (hfail : uploadFailed outcome = true) :
    handleImageChange (some u) (some (file :: rest)) preview0 pending0
        readerResult outcome =
      { toasts := [uploadErrorToast],
        uploadReq := some ⟨u.id, u.username, file⟩,
        preview := jsTruthyStr (u.profile.bind Profile.pfp),
        pendingImage := none } := by
  have hsz : ¬ file.size > 5 * 1024 * 1024 := by omega
  cases outcome with
  | netErr => simp [handleImageChange, hid, hsz, htype]
  | resp ok json =>
    cases ok with
    | false => simp [handleImageChange, hid, hsz, htype]
    | true =>
      have hurl : extractImageUrl json = none := by
        simpa [uploadFailed] using hfail
      simp [handleImageChange, hid, hsz, htype, hurl]

/-- Claim C2, witness: the amended theorem applied at a concrete failing
upload. -/
theorem c2_failed_upload_reverts_to_persisted_witness :
    sampleUser.id ≠ ""
    ∧ sampleFile.size ≤ 5 * 1024 * 1024
    ∧ jsStartsWith sampleFile.mime "image/" = true
    ∧ uploadFailed FetchOutcome.netErr = true
    ∧ handleImageChange (some sampleUser) (some [sampleFile])
        (some "https://cdn.example.com/first-upload.png") none
        "data:image/png;base64" FetchOutcome.netErr =
      { toasts := [uploadErrorToast],
        uploadReq := some ⟨sampleUser.id, sampleUser.username, sampleFile⟩,
        preview := jsTruthyStr (sampleUser.profile.bind Profile.pfp),
        pendingImage := none } :=
  ⟨by decide, by decide, by decide, rfl,
    c2_failed_upload_reverts_to_persisted sampleUser sampleFile []
      (some "https://cdn.example.com/first-upload.png") none
      "data:image/png;base64" FetchOutcome.netErr (by decide) (by decide)
      (by decide) rfl⟩

/-- Claim C3: on every valid submission with a user id present, the
payload sent to the controller combines the top-level user fields with a
nested profile record in which bio and website are the entered values or
null when empty, birthdate is the serialized timestamp string or null,
and the profile-picture URL equals the current preview state; in
particular username alice123, bio hi, website empty yields the record
with username alice123, bio hi and website null. -/
theorem c3_payload_combines_fields (isURL : String → Bool)
    (toISO : Int → String) (u : User) (preview : Option String)
    (data : ProfileFormValues)
    (controller : String → UpdatePayload → ControllerOutcome)
    (hval : validateForm isURL data = true) (hid : u.id ≠ "") :
    handleSubmit isURL toISO (some u) preview data controller =
      some (onSubmit toISO (some u) preview data controller)
    ∧ (onSubmit toISO (some u) preview data controller).controllerCall =
      some (u.id, buildProfileData toISO data preview)
    ∧ (buildProfileData toISO data preview).username = data.username
    ∧ (∀ s : String, s ≠ "" → data.bio = some s →
        (buildProfileData toISO data preview).profile.bio = some s)
    ∧ ((data.bio = some "" ∨ data.bio = none) →
        (buildProfileData toISO data preview).profile.bio = none)
    ∧ (∀ s : String, s ≠ "" → data.website = some s →
        (buildProfileData toISO data preview).profile.website = some s)
    ∧ ((data.website = some "" ∨ data.website = none) →
        (buildProfileData toISO data preview).profile.website = none)
    ∧ (buildProfileData toISO data preview).profile.birthdate =
        data.birthdate.map toISO
    ∧ (buildProfileData toISO data preview).profile.pfp = preview
    ∧ (buildProfileData sampleToISO sampleData (some samplePfp)).username =
        "alice123"
    ∧ (buildProfileData sampleToISO sampleData (some samplePfp)).profile.bio =
        some "hi"
    ∧ (buildProfileData sampleToISO sampleData
        (some samplePfp)).profile.website = none := by
  refine ⟨by simp [handleSubmit, hval],
    onSubmit_present_controllerCall toISO u preview data controller hid,
    rfl, ?_, ?_, ?_, ?_, rfl, rfl, by decide, by decide, by decide⟩
  · intro s hs hb
    simp [buildProfileData, jsTruthyStr, hb, hs]
  · rintro (hb | hb) <;> simp [buildProfileData, jsTruthyStr, hb]
  · intro s hs hw
    simp [buildProfileData, jsTruthyStr, hw, hs]
  · rintro (hw | hw) <;> simp [buildProfileData, jsTruthyStr, hw]

/-- Claim C3, witness: the theorem applied at the concrete end-to-end
example of the spec. -/
theorem c3_payload_combines_fields_witness :
    validateForm noValidURL sampleData = true
    ∧ sampleUser.id ≠ ""
    ∧ handleSubmit noValidURL sampleToISO (some sampleUser)
        (some samplePfp) sampleData controllerOk =
      some (onSubmit sampleToISO (some sampleUser) (some samplePfp)
        sampleData controllerOk) :=
  ⟨by decide, by decide,
    (c3_payload_combines_fields noValidURL sampleToISO sampleUser
      (some samplePfp) sampleData controllerOk (by decide) (by decide)).1⟩

/-- Claim C4: a selected file over 5 MB, or with a non-image MIME type,
is rejected before any network call — no upload request is dispatched,
the result does not depend on any fetch outcome, and the toast is the
size error (for oversize files) or the type error (for non-image files
within the size limit; an oversize non-image file hits the size check
first). -/
theorem c4_invalid_file_rejected_before_upload (u : User) (file : JSFile)
    (rest : List JSFile) (preview0 : Option String)
    (pending0 : Option JSFile) (readerResult : String)
    (outcome outcome2 : FetchOutcome) (hid : u.id ≠ "")
    (h : file.size > 5 * 1024 * 1024
      ∨ jsStartsWith file.mime "image/" = false) :
    (handleImageChange (some u) (some (file :: rest)) preview0 pending0
        readerResult outcome).uploadReq = none
    ∧ handleImageChange (some u) (some (file :: rest)) preview0 pending0
        readerResult outcome
      = handleImageChange (some u) (some (file :: rest)) preview0 pending0
        readerResult outcome2
    ∧ (file.size > 5 * 1024 * 1024 →
        (handleImageChange (some u) (some (file :: rest)) preview0 pending0
          readerResult outcome).toasts = [sizeErrorToast])
    ∧ (file.size ≤ 5 * 1024 * 1024 →
        jsStartsWith file.mime "image/" = false →
        (handleImageChange (some u) (some (file :: rest)) preview0 pending0
          readerResult outcome).toasts = [typeErrorToast]) := by
  by_cases hsz : file.size > 5 * 1024 * 1024
  · rw [handleImageChange_oversize u file rest preview0 pending0
      readerResult outcome hid hsz,
      handleImageChange_oversize u file rest preview0 pending0
      readerResult outcome2 hid hsz]
    exact ⟨rfl, rfl, fun _ => rfl, fun hle _ => absurd hsz (by omega)⟩
  · have hty : jsStartsWith file.mime "image/" = false := by
      rcases h with h | h
      · exact absurd h hsz
      · exact h
    rw [handleImageChange_badtype u file rest preview0 pending0
      readerResult outcome hid hsz hty,
      handleImageChange_badtype u file rest preview0 pending0
      readerResult outcome2 hid hsz hty]
    exact ⟨rfl, rfl, fun hgt => absurd hgt hsz, fun _ _ => rfl⟩

/-- Claim C4, witness: the theorem applied to a concrete oversize file
and, through its type-error conjunct instantiation, checked on concrete
data. -/
theorem c4_invalid_file_rejected_before_upload_witness :
    sampleUser.id ≠ ""
    ∧ (oversizeFile.size > 5 * 1024 * 1024
      ∨ jsStartsWith oversizeFile.mime "image/" = false)
    ∧ (handleImageChange (some sampleUser) (some [oversizeFile]) none none
        "d" FetchOutcome.netErr).uploadReq = none :=
  ⟨by decide, Or.inl (by decide),
    (c4_invalid_file_rejected_before_upload sampleUser oversizeFile []
      none none "d" FetchOutcome.netErr FetchOutcome.netErr (by decide)
      (Or.inl (by decide))).1⟩

/-- Claim C5: username validation accepts exactly the strings of length
3 through 30; length 2 and length 31 fail and block submission, lengths
3 and 30 pass. -/
theorem c5_username_length_bounds :
    (∀ s : String, validateUsername s = true ↔
      3 ≤ s.length ∧ s.length ≤ 30)
    ∧ validateUsername "ab" = false
    ∧ validateUsername "abc" = true
    ∧ validateUsername "abcdefghijklmnopqrstuvwxyz0123" = true
    ∧ validateUsername "abcdefghijklmnopqrstuvwxyz01234" = false
    ∧ (∀ (isURL : String → Bool) (toISO : Int → String)
        (user : Option User) (preview : Option String)
        (data : ProfileFormValues)
        (controller : String → UpdatePayload → ControllerOutcome),
        validateUsername data.username = false →
        handleSubmit isURL toISO user preview data controller = none) := by
  refine ⟨?_, by decide, by decide, by decide, by decide, ?_⟩
  · intro s
    simp [validateUsername]
  · intro isURL toISO user preview data controller h
    simp [handleSubmit, validateForm, h]

/-- Claim C5, witness: a length-2 username blocks submission on concrete
data. -/
theorem c5_username_length_bounds_witness :
    validateUsername shortNameData.username = false
    ∧ handleSubmit noValidURL sampleToISO (some sampleUser) none
        shortNameData controllerOk = none :=
  ⟨by decide,
    c5_username_length_bounds.2.2.2.2.2 noValidURL sampleToISO
      (some sampleUser) none shortNameData controllerOk (by decide)⟩

/-- Claim C6: if the controller call throws or resolves to a falsy
value, the submit handler surfaces the generic error toast, never calls
`onUpdate`, never calls `onClose`, and leaves the form values intact. -/
theorem c6_controller_failure_keeps_form (toISO : Int → String) (u : User)
    (preview : Option String) (data : ProfileFormValues)
    (controller : String → UpdatePayload → ControllerOutcome)
    (hid : u.id ≠ "")
    (hfail : controller u.id (buildProfileData toISO data preview) =
        ControllerOutcome.throws
      ∨ controller u.id (buildProfileData toISO data preview) =
        ControllerOutcome.returns none) :
    (onSubmit toISO (some u) preview data controller).toasts =
      [updateErrorToast]
    ∧ (onSubmit toISO (some u) preview data controller).onUpdateCalls = []
    ∧ (onSubmit toISO (some u) preview data controller).onCloseCalls = 0
    ∧ (onSubmit toISO (some u) preview data controller).formValuesAfter =
      data := by
  rcases hfail with hc | hc <;>
    exact ⟨by simp [onSubmit, hid, hc], by simp [onSubmit, hid, hc],
      by simp [onSubmit, hid, hc], by simp [onSubmit, hid, hc]⟩

/-- Claim C6, witness: the theorem applied to a controller resolving
with a falsy value. -/
theorem c6_controller_failure_keeps_form_witness :
    sampleUser.id ≠ ""
    ∧ (controllerNull sampleUser.id
        (buildProfileData sampleToISO sampleData none) =
        ControllerOutcome.throws
      ∨ controllerNull sampleUser.id
        (buildProfileData sampleToISO sampleData none) =
        ControllerOutcome.returns none)
    ∧ ((onSubmit sampleToISO (some sampleUser) none sampleData
          controllerNull).toasts = [updateErrorToast]
      ∧ (onSubmit sampleToISO (some sampleUser) none sampleData
          controllerNull).onUpdateCalls = []
      ∧ (onSubmit sampleToISO (some sampleUser) none sampleData
          controllerNull).onCloseCalls = 0
      ∧ (onSubmit sampleToISO (some sampleUser) none sampleData
          controllerNull).formValuesAfter = sampleData) :=
  ⟨by decide, Or.inr rfl,
    c6_controller_failure_keeps_form sampleToISO sampleUser none sampleData
      controllerNull (by decide) (Or.inr rfl)⟩

/-- Claim C7: whenever the user prop is absent or its id is falsy, an
image selection (with at least one file) and a form submission each fail
immediately with the missing-user toast, dispatching no upload request
and no controller call and leaving all state unchanged. -/
theorem c7_missing_user_blocks_both (user : Option User)
    (hmiss : userIdMissing user = true) :
    (∀ (file : JSFile) (rest : List JSFile) (preview0 : Option String)
      (pending0 : Option JSFile) (readerResult : String)
      (outcome : FetchOutcome),
      handleImageChange user (some (file :: rest)) preview0 pending0
          readerResult outcome =
        { toasts := [missingUserToast], uploadReq := none,
          preview := preview0, pendingImage := pending0 })
    ∧ (∀ (toISO : Int → String) (preview : Option String)
        (data : ProfileFormValues)
        (controller : String → UpdatePayload → ControllerOutcome),
        onSubmit toISO user preview data controller =
          { toasts := [missingUserToast], controllerCall := none,
            onUpdateCalls := [], onCloseCalls := 0,
            formValuesAfter := data }) := by
  cases user with
  | none => exact ⟨fun _ _ _ _ _ _ => rfl, fun _ _ _ _ => rfl⟩
  | some u =>
    have hid : u.id = "" := by simpa [userIdMissing] using hmiss
    constructor
    · intro file rest preview0 pending0 readerResult outcome
      simp [handleImageChange, hid]
    · intro toISO preview data controller
      simp [onSubmit, hid]

/-- Claim C7, witness: the theorem applied to a user whose id is the
empty string. -/
theorem c7_missing_user_blocks_both_witness :
    userIdMissing (some noIdUser) = true
    ∧ onSubmit sampleToISO (some noIdUser) none sampleData controllerOk =
      { toasts := [missingUserToast], controllerCall := none,
        onUpdateCalls := [], onCloseCalls := 0,
        formValuesAfter := sampleData } :=
  ⟨by decide,
    (c7_missing_user_blocks_both (some noIdUser) (by decide)).2
      sampleToISO none sampleData controllerOk⟩

/-- Claim C8: the submit control is disabled in every state where an
image upload is pending (`uploadingImage` true), so no submission can be
initiated while an upload is in flight. -/
theorem c8_submit_disabled_while_uploading :
    ∀ isSubmitting : Bool, submitDisabled isSubmitting true = true := by
  decide

/-- Claim C9: website validation accepts the empty string (treated as
absent), and rejects every non-empty string failing the URL syntax
check, such as not-a-url, blocking submission. -/
theorem c9_website_validation :
    (∀ isURL : String → Bool, validateWebsite isURL (some "") = true)
    ∧ validateWebsite noValidURL (some "not-a-url") = false
    ∧ (∀ (isURL : String → Bool) (s : String), s ≠ "" →
        isURL s = false → validateWebsite isURL (some s) = false)
    ∧ (∀ (isURL : String → Bool) (toISO : Int → String)
        (user : Option User) (preview : Option String)
        (data : ProfileFormValues)
        (controller : String → UpdatePayload → ControllerOutcome),
        validateWebsite isURL data.website = false →
        handleSubmit isURL toISO user preview data controller = none) := by
  refine ⟨fun isURL => rfl, by decide, ?_, ?_⟩
  · intro isURL s hs hurl
    simp [validateWebsite, hs, hurl]
  · intro isURL toISO user preview data controller h
    simp [handleSubmit, validateForm, h]

/-- Claim C9, witness: a non-URL website blocks submission on concrete
data. -/
theorem c9_website_validation_witness :
    validateWebsite noValidURL badUrlData.website = false
    ∧ handleSubmit noValidURL sampleToISO (some sampleUser) none
        badUrlData controllerOk = none :=
  ⟨by decide,
    c9_website_validation.2.2.2 noValidURL sampleToISO (some sampleUser)
      none badUrlData controllerOk (by decide)⟩

/-- Claim C10: when the selection event carries no file list or an empty
one, the handler returns silently before any other check — no toast, no
upload request, and the preview and pending-image state are unchanged,
whatever the user prop holds. -/
theorem c10_no_files_silent_return (user : Option User)
    (preview0 : Option String) (pending0 : Option JSFile)
    (readerResult : String) (outcome : FetchOutcome) :
    handleImageChange user none preview0 pending0 readerResult outcome =
      { toasts := [], uploadReq := none, preview := preview0,
        pendingImage := pending0 }
    ∧ handleImageChange user (some []) preview0 pending0 readerResult
        outcome =
      { toasts := [], uploadReq := none, preview := preview0,
        pendingImage := pending0 } :=
  ⟨rfl, rfl⟩

end BlogsSystem
